import Mathlib

/-!
Verification of the admin-portal status/notification pipeline.

The definitions below are a shallow embedding of the TypeScript/JavaScript
sources of the repository:

* SLANotificationService (slaNotificationService.ts): fixed-threshold SLA
  checks over wall-clock timestamps.  Timestamps are modelled as rational
  milliseconds (the value of Date.getTime), so the JavaScript division by
  1000 is exact.
* ComplaintStatusService (complaintStatusService.ts): status updates on the
  complaints collection plus the append-only statusHistory collection.
* FCMService (fcmService.ts): token lookup, notification dispatch and the
  notificationLogs collection.
* NotificationService (notificationService.ts): the status-update
  orchestrator combining the two services above.
* Cloud Functions (functions/index.js): the onWrite trigger handler, the
  callable sendCustomNotification endpoint and their content generator.

The document store is modelled as explicit state (association lists keyed by
document id).  Operations that can fail at the store or at the messaging
service take oracle parameters (Bool flags or an Except value) describing
the outcome of the external call; the embedding then reproduces exactly the
control flow of the source around that outcome.  JavaScript truthiness on
optional string fields is modelled by jsTruthy and friends.
-/

namespace AdminPortal

/-- JavaScript truthiness of an optional string field: undefined and the
empty string are falsy. -/
def jsTruthy : Option String → Bool
  | none => false
  | some s => s != ""

/-- JavaScript a || d for an optional string a: the default wins when a is
undefined or empty. -/
def jsOr (o : Option String) (d : String) : String :=
  match o with
  | some s => if s == "" then d else s
  | none => d

/-- String interpolation of a possibly undefined value (JavaScript renders
undefined as the string undefined). -/
def jsStr (o : Option String) : String :=
  o.getD "undefined"

/-! ## SLA monitor (slaNotificationService.ts) -/

namespace SLANotificationService

/-- Complaint as consumed by the SLA service; createdAt is the creation
time in milliseconds. -/
structure SLAComplaint where
  complaintId : String := ""
  createdAt : ℚ
  status : String
  escalatedToHigherAuthority : Bool := false
deriving DecidableEq, Repr

/-- private static readonly SLA_SECONDS = 48 -/
def SLA_SECONDS : ℚ := 48

/-- (now.getTime() - createdAt.getTime()) / 1000 -/
def secondsSinceCreated (c : SLAComplaint) (now : ℚ) : ℚ :=
  (now - c.createdAt) / 1000

/-- isSLABreached: secondsSinceCreated > SLA_SECONDS.  The function reads
only the creation timestamp; the status field is not consulted. -/
def isSLABreached (c : SLAComplaint) (now : ℚ) : Bool :=
  secondsSinceCreated c now > SLA_SECONDS

/-- getSecondsUntilDeadline: Math.max(0, SLA_SECONDS - secondsSinceCreated). -/
def getSecondsUntilDeadline (c : SLAComplaint) (now : ℚ) : ℚ :=
  max 0 (SLA_SECONDS - secondsSinceCreated c now)

/-- The filter inside checkAndNotifyBreaches: complaints that are breached,
not already escalated, and whose status is not the literal Resolved. -/
def breachedComplaints (cs : List SLAComplaint) (now : ℚ) : List SLAComplaint :=
  cs.filter fun c =>
    isSLABreached c now && c.status != "Resolved" && !c.escalatedToHigherAuthority

end SLANotificationService

/-! ## Document store model -/

/-- A document of the complaints collection.  Fields that the embedded code
reads or writes; optional fields model fields that may be absent on the
stored document.  Timestamps are integer milliseconds. -/
structure ComplaintDoc where
  complaintId : String := ""
  userId : Option String := none
  category : String := ""
  description : String := ""
  status : Option String := none
  assignedTo : Option String := none
  department : Option String := none
  lastUpdateNotes : Option String := none
  resolvedImageBase64 : Option String := none
  resolvedBy : Option String := none
  resolvedAt : Option Int := none
  createdAt : Int := 0
  updatedAt : Option Int := none
  updatedBy : Option String := none
deriving DecidableEq, Repr

/-- A document of the fcmTokens collection (interface FCMTokenData). -/
structure FCMTokenData where
  userId : String
  token : String
  deviceType : String := "web"
  isActive : Bool
deriving DecidableEq, Repr

/-- A document of the notificationLogs collection (interface NotificationLog
plus the extra fields written by the cloud functions). -/
structure NotificationLog where
  userId : String
  complaintId : String
  type : String
  title : String
  body : String
  sentAt : Int
  status : String
  fcmToken : Option String := none
  error : Option String := none
  messageId : Option String := none
  sentBy : Option String := none
deriving DecidableEq, Repr

/-- A document of the statusHistory collection (interface StatusHistory,
without the generated document id). -/
structure StatusHistoryEntry where
  complaintId : String
  previousStatus : String
  newStatus : String
  updatedBy : String
  updatedAt : Int
  notes : Option String := none
deriving DecidableEq, Repr

/-- The document store: the four collections the embedded code touches.
complaints and fcmTokens are keyed by document id; statusHistory and
notificationLogs are append-only (addDoc generates fresh ids, so order of
insertion is all that matters). -/
structure FirestoreState where
  complaints : List (String × ComplaintDoc) := []
  statusHistory : List StatusHistoryEntry := []
  notificationLogs : List NotificationLog := []
  fcmTokens : List (String × FCMTokenData) := []
deriving DecidableEq, Repr

/-- updateDoc on an existing document: replace the value stored under the
given key, leaving every other entry alone. -/
def updateAssoc {α : Type} (l : List (String × α)) (k : String) (v : α) :
    List (String × α) :=
  l.map fun p => match p.1 == k with
    | true => (k, v)
    | false => p

/-! ## ComplaintStatusService (complaintStatusService.ts) -/

namespace ComplaintStatusService

/-- type ComplaintStatus = submitted | in-progress | resolved | closed -/
inductive ComplaintStatus
  | submitted
  | inProgress
  | resolved
  | closed
deriving DecidableEq, Repr

/-- The string literal of each status value. -/
def ComplaintStatus.toStr : ComplaintStatus → String
  | .submitted => "submitted"
  | .inProgress => "in-progress"
  | .resolved => "resolved"
  | .closed => "closed"

/-- interface StatusUpdateData -/
structure StatusUpdateData where
  status : ComplaintStatus
  updatedBy : String
  updatedAt : Int
  notes : Option String := none
  assignedTo : Option String := none
  department : Option String := none
  resolvedImageUrl : Option String := none
  resolvedBy : Option String := none
  resolvedAt : Option Int := none
deriving DecidableEq, Repr

/-- The updateFields object built by updateComplaintStatus and merged into
the current document by updateDoc: status, updatedAt and updatedBy always;
assignedTo, department and lastUpdateNotes only when the supplied value is
truthy; and when the target status is resolved also resolvedImageBase64
(set unconditionally from resolvedImageUrl), resolvedBy (falling back to
updatedBy) and resolvedAt (falling back to updatedAt). -/
def applyUpdateFields (cur : ComplaintDoc) (d : StatusUpdateData) :
    ComplaintDoc :=
  let base : ComplaintDoc :=
    { cur with
      status := some d.status.toStr
      updatedAt := some d.updatedAt
      updatedBy := some d.updatedBy
      assignedTo := if jsTruthy d.assignedTo then d.assignedTo else cur.assignedTo
      department := if jsTruthy d.department then d.department else cur.department
      lastUpdateNotes := if jsTruthy d.notes then d.notes else cur.lastUpdateNotes }
  if d.status = .resolved then
    { base with
      resolvedImageBase64 := d.resolvedImageUrl
      resolvedBy := some (jsOr d.resolvedBy d.updatedBy)
      resolvedAt := some (d.resolvedAt.getD d.updatedAt) }
  else base

/-- addStatusHistory: addDoc into statusHistory; a store failure is caught
and swallowed (the method never throws), modelled by the writeFails
oracle. -/
def addStatusHistory (s : FirestoreState) (e : StatusHistoryEntry)
    (writeFails : Bool) : FirestoreState :=
  if writeFails then s
  else { s with statusHistory := s.statusHistory ++ [e] }

/-- updateComplaintStatus: read the current document (throwing a not-found
error that the surrounding catch rewraps when it is absent), merge the
update fields, then append the history entry through addStatusHistory.
previousStatus falls back to submitted when the stored status is falsy. -/
def updateComplaintStatus (s : FirestoreState) (complaintId : String)
    (d : StatusUpdateData) (historyWriteFails : Bool) :
    Except String Unit × FirestoreState :=
  match s.complaints.lookup complaintId with
  | none =>
      (Except.error
        ("Failed to update complaint status: Complaint " ++ complaintId ++
          " not found"), s)
  | some cur =>
      let previousStatus := jsOr cur.status "submitted"
      let updated := applyUpdateFields cur d
      let s₁ : FirestoreState :=
        { s with complaints := updateAssoc s.complaints complaintId updated }
      let s₂ := addStatusHistory s₁
        { complaintId := complaintId
          previousStatus := previousStatus
          newStatus := d.status.toStr
          updatedBy := d.updatedBy
          updatedAt := d.updatedAt
          notes := d.notes } historyWriteFails
      (Except.ok (), s₂)

end ComplaintStatusService

/-! ## FCMService (fcmService.ts) -/

namespace FCMService

/-- interface NotificationPayload (the data record is re-derivable from the
type and complaint id, so only the displayed fields are kept). -/
structure NotificationPayload where
  title : String
  body : String
  icon : Option String := none
deriving DecidableEq, Repr

/-- logNotification: addDoc into notificationLogs; a store failure is
caught and swallowed, modelled by the writeFails oracle. -/
def logNotification (s : FirestoreState) (log : NotificationLog)
    (writeFails : Bool) : FirestoreState :=
  if writeFails then s
  else { s with notificationLogs := s.notificationLogs ++ [log] }

/-- sendNotification: look up the fcmTokens document keyed userId_web;
return false with no log when it is absent or inactive; otherwise log a
sent entry carrying the token and return true.  The only fallible step
inside the try block is the token read, modelled by the tokenReadFails
oracle: when it fails the catch branch logs a failed entry (without the
token) and returns false.  The function itself never throws. -/
def sendNotification (s : FirestoreState) (userId complaintId : String)
    (type title body : String) (now : Int)
    (tokenReadFails logWriteFails : Bool) : Bool × FirestoreState :=
  if tokenReadFails then
    (false, logNotification s
      { userId := userId, complaintId := complaintId, type := type
        title := title, body := body, sentAt := now, status := "failed" }
      logWriteFails)
  else
    match s.fcmTokens.lookup (userId ++ "_web") with
    | none => (false, s)
    | some td =>
        if !td.isActive then (false, s)
        else
          (true, logNotification s
            { userId := userId, complaintId := complaintId, type := type
              title := title, body := body, sentAt := now, status := "sent"
              fcmToken := some td.token }
            logWriteFails)

/-- generateNotificationContent of fcmService.ts: fixed per-kind templates
substituting the category and the complaint id. -/
def generateNotificationContent (type : String) (complaintId category : String) :
    NotificationPayload :=
  if type == "confirmation" then
    { title := "✅ Complaint Submitted Successfully"
      body := "Your " ++ category ++ " complaint (#" ++ complaintId ++
        ") has been received and is being processed."
      icon := some "/icons/confirmation.png" }
  else if type == "acknowledgment" then
    { title := "🔄 Complaint Acknowledged"
      body := "Your " ++ category ++ " complaint (#" ++ complaintId ++
        ") has been assigned and is now in progress."
      icon := some "/icons/in-progress.png" }
  else if type == "resolution" then
    { title := "✨ Complaint Resolved"
      body := "Great news! Your " ++ category ++ " complaint (#" ++
        complaintId ++ ") has been resolved."
      icon := some "/icons/resolved.png" }
  else
    { title := "Complaint Update"
      body := "Your complaint (#" ++ complaintId ++ ") has been updated."
      icon := some "/icons/notification.png" }

end FCMService

/-! ## NotificationService orchestrator (notificationService.ts) -/

namespace NotificationService

open ComplaintStatusService

/-- The switch inside triggerNotification: the notification kind is decided
by the new status alone; closed (the default branch) yields no kind. -/
def orchestratorKind : ComplaintStatus → Option String
  | .submitted => some "confirmation"
  | .inProgress => some "acknowledgment"
  | .resolved => some "resolution"
  | .closed => none

/-- triggerNotification: refetch the complaint (modelled from the spec:
fetchUserComplaintById of userComplaintsService.ts is not among the given
sources; per the data model it reads the complaints document by id,
returning null when absent), derive the kind from the new status, build the
payload and hand it to FCMService.sendNotification.  Every error is caught,
so the caller always gets the resulting state back.  The previousStatus of
the trigger record is accepted but never read. -/
def triggerNotification (s : FirestoreState) (complaintId userId : String)
    (previousStatus : String) (newStatus : ComplaintStatus) (now : Int)
    (tokenReadFails logWriteFails : Bool) : FirestoreState :=
  match s.complaints.lookup complaintId with
  | none => s
  | some complaint =>
      match orchestratorKind newStatus with
      | none => s
      | some kind =>
          let p := FCMService.generateNotificationContent kind
            complaint.complaintId complaint.category
          (FCMService.sendNotification s userId complaintId kind
            p.title p.body now tokenReadFails logWriteFails).2

/-- updateStatusAndNotify: fetch the complaint (throwing not-found when it
is absent), persist the status through
ComplaintStatusService.updateComplaintStatus, then fire triggerNotification
with the submitter id taken from the first fetch.  Dispatch never fails the
call; a persistence error propagates. -/
def updateStatusAndNotify (s : FirestoreState) (complaintId : String)
    (newStatus : ComplaintStatus) (updatedBy : String)
    (assignedTo department notes : Option String) (now : Int)
    (historyWriteFails tokenReadFails logWriteFails : Bool) :
    Except String Unit × FirestoreState :=
  match s.complaints.lookup complaintId with
  | none => (Except.error ("Complaint " ++ complaintId ++ " not found"), s)
  | some complaint =>
      let previousStatus := jsOr complaint.status "submitted"
      match updateComplaintStatus s complaintId
        { status := newStatus, updatedBy := updatedBy, updatedAt := now
          notes := notes, assignedTo := assignedTo, department := department }
        historyWriteFails with
      | (Except.error e, s₁) => (Except.error e, s₁)
      | (Except.ok _, s₁) =>
          (Except.ok (), triggerNotification s₁ complaintId
            (jsStr complaint.userId) previousStatus newStatus now
            tokenReadFails logWriteFails)

end NotificationService

/-! ## Cloud Functions (functions/index.js) -/

namespace CloudFunctions

/-- The payload generator of functions/index.js (same templates as
fcmService.ts, reading complaintId and category from the document). -/
def generateNotificationContent (type : String) (c : ComplaintDoc) :
    FCMService.NotificationPayload :=
  FCMService.generateNotificationContent type c.complaintId c.category

/-- The kind derivation of onComplaintStatusChange: confirmation for any
creation (no before-image, regardless of the new status); on a status
change, acknowledgment for in-progress and resolution for resolved; nothing
otherwise. -/
def triggerNotificationType (oldData : Option ComplaintDoc)
    (newData : ComplaintDoc) : Option String :=
  match oldData with
  | none => some "confirmation"
  | some old =>
      if old.status ≠ newData.status then
        match newData.status with
        | some st =>
            if st = "in-progress" then some "acknowledgment"
            else if st = "resolved" then some "resolution"
            else none
        | none => none
      else none

/-- A send request handed to the messaging service. -/
structure SendMessage where
  token : String
  title : String
  body : String
  icon : String
  complaintId : String
  type : String
deriving DecidableEq, Repr

/-- onComplaintStatusChange: the onWrite trigger.  Returns the handler
result (ok none for the silent early returns, ok of the message id on a
successful send, error when the handler rejects), the resulting store and
the list of send requests submitted to the messaging service (the
sendResult oracle is the outcome of that call).  On a send failure the
catch block dereferences newData, a const that is scoped to the try block
in the source, so the handler raises a ReferenceError: no failure log entry
is ever written and the returned promise rejects. -/
def onComplaintStatusChange (s : FirestoreState) (complaintId : String)
    (before after : Option ComplaintDoc) (sendResult : Except String String)
    (now : Int) :
    Except String (Option String) × FirestoreState × List SendMessage :=
  match after with
  | none => (Except.ok none, s, [])
  | some newData =>
      if !(jsTruthy newData.userId) then (Except.ok none, s, [])
      else
        match triggerNotificationType before newData with
        | none => (Except.ok none, s, [])
        | some type =>
            let userId := jsStr newData.userId
            match s.fcmTokens.lookup (userId ++ "_web") with
            | none => (Except.ok none, s, [])
            | some td =>
                if !td.isActive then (Except.ok none, s, [])
                else
                  let content := generateNotificationContent type newData
                  let msg : SendMessage :=
                    { token := td.token, title := content.title
                      body := content.body, icon := content.icon.getD ""
                      complaintId := complaintId, type := type }
                  match sendResult with
                  | Except.ok response =>
                      (Except.ok (some response),
                        { s with notificationLogs := s.notificationLogs ++
                            [{ userId := userId, complaintId := complaintId
                               type := type, title := content.title
                               body := content.body, sentAt := now
                               status := "sent", fcmToken := some td.token
                               messageId := some response }] },
                        [msg])
                  | Except.error _ =>
                      (Except.error "ReferenceError: newData is not defined",
                        s, [msg])

/-- The error type thrown inside the try block of sendCustomNotification:
either one of the explicitly constructed HttpsError values or a failure of
the messaging send; the catch-all only looks at the message. -/
inductive TryErr
  | httpsErr (code message : String)
  | sendErr (message : String)
deriving DecidableEq, Repr

/-- The message property read by the catch-all handler. -/
def TryErr.message : TryErr → String
  | .httpsErr _ m => m
  | .sendErr m => m

/-- A structured callable error as seen by the caller. -/
structure HttpsError where
  code : String
  message : String
deriving DecidableEq, Repr

/-- The data argument of the callable endpoint; absent fields model missing
properties. -/
structure CustomNotificationData where
  userId : Option String := none
  complaintId : Option String := none
  title : Option String := none
  body : Option String := none
  type : Option String := none
deriving DecidableEq, Repr

/-- The try block of sendCustomNotification: token lookup (absent throws a
not-found HttpsError, inactive throws failed-precondition), the messaging
send (its failure throws), then the success log and the
success and messageId result. -/
def sendCustomNotificationBody (s : FirestoreState)
    (d : CustomNotificationData) (sendResult : Except String String)
    (authUid : String) (now : Int) :
    Except TryErr ((Bool × String) × FirestoreState) :=
  match s.fcmTokens.lookup (jsStr d.userId ++ "_web") with
  | none => Except.error (.httpsErr "not-found" "FCM token not found for user")
  | some td =>
      if !td.isActive then
        Except.error (.httpsErr "failed-precondition" "FCM token is inactive")
      else
        match sendResult with
        | Except.error m => Except.error (.sendErr m)
        | Except.ok response =>
            Except.ok ((true, response),
              { s with notificationLogs := s.notificationLogs ++
                  [{ userId := jsStr d.userId
                     complaintId := jsStr d.complaintId
                     type := jsOr d.type "custom", title := jsStr d.title
                     body := jsStr d.body, sentAt := now, status := "sent"
                     fcmToken := some td.token, messageId := some response
                     sentBy := some authUid }] })

/-- sendCustomNotification: unauthenticated and invalid-argument are thrown
before the try block and reach the caller as such; every error raised
inside the try block - including the not-found and failed-precondition
HttpsError values it constructs - is caught by the catch-all and rewrapped
as an internal error carrying the original message. -/
def sendCustomNotification (s : FirestoreState) (auth : Option String)
    (d : CustomNotificationData) (sendResult : Except String String)
    (now : Int) : Except HttpsError ((Bool × String) × FirestoreState) :=
  match auth with
  | none =>
      Except.error { code := "unauthenticated"
                     message := "User must be authenticated" }
  | some uid =>
      if !(jsTruthy d.userId && jsTruthy d.complaintId && jsTruthy d.title &&
            jsTruthy d.body) then
        Except.error { code := "invalid-argument"
                       message := "Missing required fields" }
      else
        match sendCustomNotificationBody s d sendResult uid now with
        | Except.ok r => Except.ok r
        | Except.error e =>
            Except.error { code := "internal", message := e.message }

end CloudFunctions

/-! ## Concrete fixtures used by witnesses and counterexamples -/

/-- A stored complaint of user u1, currently in progress. -/
def sampleDoc : ComplaintDoc :=
  { complaintId := "c1", userId := some "u1", category := "Garbage"
    status := some "in-progress", createdAt := 0 }

/-- A store holding only the sample complaint and no device tokens. -/
def sampleState : FirestoreState :=
  { complaints := [("c1", sampleDoc)] }

/-- An active device token of user u1. -/
def sampleTokenActive : FCMTokenData :=
  { userId := "u1", token := "tok1", isActive := true }

/-- A deactivated device token of user u1. -/
def sampleTokenInactive : FCMTokenData :=
  { userId := "u1", token := "tok1", isActive := false }

/-- The sample store plus an active token for user u1. -/
def sampleStateActive : FirestoreState :=
  { complaints := [("c1", sampleDoc)]
    fcmTokens := [("u1_web", sampleTokenActive)] }

/-- The sample store plus a deactivated token for user u1. -/
def sampleStateInactive : FirestoreState :=
  { complaints := [("c1", sampleDoc)]
    fcmTokens := [("u1_web", sampleTokenInactive)] }

end AdminPortal

open AdminPortal
open AdminPortal.SLANotificationService

/-- C1 counterexample: a complaint whose status is resolved and whose age is
100 seconds is reported as breached by isSLABreached, contradicting the
claim that isSLABreached returns false for resolved complaints. -/
theorem C1_isSLABreached_resolved_counterexample :
    isSLABreached
      { complaintId := "c1", createdAt := 0, status := "resolved",
        escalatedToHigherAuthority := false } 100000 = true := by
  simp only [isSLABreached, secondsSinceCreated, SLA_SECONDS, decide_eq_true_eq]
  norm_num

/-- C1 amended: isSLABreached ignores the status field entirely, returning
breached exactly when more than 48 seconds have elapsed since creation, even
for resolved complaints; resolved complaints are instead excluded from SLA
escalation by the filter inside checkAndNotifyBreaches, which skips every
complaint whose status equals Resolved. -/
theorem C1_isSLABreached_status_independent (c : SLAComplaint) (now : ℚ)
    (s : String) (h : c.status = "Resolved") :
    isSLABreached { c with status := s } now = isSLABreached c now ∧
    breachedComplaints [c] now = [] := by
  refine ⟨rfl, ?_⟩
  simp [breachedComplaints, h]

/-- C1 witness: the amended statement at a concrete resolved complaint that
is well past the threshold. -/
theorem C1_isSLABreached_status_independent_witness :
    isSLABreached
      { complaintId := "c1", createdAt := 0, status := "submitted",
        escalatedToHigherAuthority := false } 100000 =
    isSLABreached
      { complaintId := "c1", createdAt := 0, status := "Resolved",
        escalatedToHigherAuthority := false } 100000 ∧
    breachedComplaints
      [{ complaintId := "c1", createdAt := 0, status := "Resolved",
         escalatedToHigherAuthority := false }] 100000 = [] :=
  C1_isSLABreached_status_independent
    { complaintId := "c1", createdAt := 0, status := "Resolved",
      escalatedToHigherAuthority := false } 100000 "submitted" rfl

/-- C6: for a fixed complaint, getSecondsUntilDeadline is antitone in the
current time, never negative, and equals exactly 0 once the elapsed time
has reached the 48-second threshold. -/
theorem C6_getSecondsUntilDeadline_spec (c : SLAComplaint) (t₁ t₂ : ℚ)
    (h : t₁ ≤ t₂) :
    getSecondsUntilDeadline c t₂ ≤ getSecondsUntilDeadline c t₁ ∧
    0 ≤ getSecondsUntilDeadline c t₂ ∧
    (SLA_SECONDS ≤ secondsSinceCreated c t₂ →
      getSecondsUntilDeadline c t₂ = 0) := by
  refine ⟨?_, le_max_left _ _, ?_⟩
  · apply max_le_max le_rfl
    have : secondsSinceCreated c t₁ ≤ secondsSinceCreated c t₂ := by
      unfold secondsSinceCreated
      linarith
    linarith
  · intro hthr
    exact max_eq_left (by linarith)

/-- C6 witness: concrete complaint created at time 0, sampled at 10 seconds
and then at the 48-second threshold. -/
theorem C6_getSecondsUntilDeadline_spec_witness :
    getSecondsUntilDeadline
      { complaintId := "c1", createdAt := 0, status := "submitted",
        escalatedToHigherAuthority := false } 48000 ≤
    getSecondsUntilDeadline
      { complaintId := "c1", createdAt := 0, status := "submitted",
        escalatedToHigherAuthority := false } 10000 ∧
    0 ≤ getSecondsUntilDeadline
      { complaintId := "c1", createdAt := 0, status := "submitted",
        escalatedToHigherAuthority := false } 48000 ∧
    getSecondsUntilDeadline
      { complaintId := "c1", createdAt := 0, status := "submitted",
        escalatedToHigherAuthority := false } 48000 = 0 := by
  have h := C6_getSecondsUntilDeadline_spec
    { complaintId := "c1", createdAt := 0, status := "submitted",
      escalatedToHigherAuthority := false } 10000 48000 (by norm_num)
  refine ⟨h.1, h.2.1, h.2.2 ?_⟩
  simp only [secondsSinceCreated, SLA_SECONDS]
  norm_num

open AdminPortal.ComplaintStatusService
open AdminPortal.NotificationService
open AdminPortal.FCMService

/-- Looking up the updated key after updateAssoc yields the new value,
provided the key was present before. -/
theorem lookup_updateAssoc {α : Type} (l : List (String × α)) (k : String)
    (v cur : α) (h : l.lookup k = some cur) :
    (updateAssoc l k v).lookup k = some v := by
  induction l with
  | nil => simp [List.lookup] at h
  | cons p t ih =>
      obtain ⟨a, b⟩ := p
      by_cases hk : a = k
      · have h1 : (a == k) = true := beq_iff_eq.mpr hk
        simp only [updateAssoc, List.map_cons, h1]
        simp [List.lookup]
      · have h1 : (a == k) = false := beq_eq_false_iff_ne.mpr hk
        have h2 : (k == a) = false := beq_eq_false_iff_ne.mpr (Ne.symm hk)
        simp only [List.lookup, h2] at h
        simp only [updateAssoc, List.map_cons, h1]
        simp only [List.lookup, h2]
        simpa only [updateAssoc] using ih h

/-- C4: updating the status of a complaint identifier that is absent from
the complaints collection fails with the not-found error and leaves the
store untouched (no complaint write, no history entry, no notification log)
on both the direct service path and the orchestrator path. -/
theorem C4_update_nonexistent_notFound_noop (s : FirestoreState)
    (cid : String) (d : StatusUpdateData) (st : ComplaintStatus)
    (ub : String) (a dep n : Option String) (now : Int) (hf trf lwf : Bool)
    (h : s.complaints.lookup cid = none) :
    updateComplaintStatus s cid d hf =
      (Except.error ("Failed to update complaint status: Complaint " ++ cid ++
        " not found"), s) ∧
    updateStatusAndNotify s cid st ub a dep n now hf trf lwf =
      (Except.error ("Complaint " ++ cid ++ " not found"), s) := by
  constructor
  · unfold updateComplaintStatus
    simp [h]
  · unfold updateStatusAndNotify
    simp [h]

/-- C4 witness: the empty store and the identifier ISS-0000. -/
theorem C4_update_nonexistent_notFound_noop_witness :
    updateComplaintStatus {} "ISS-0000"
      { status := .resolved, updatedBy := "admin", updatedAt := 0 } false =
      (Except.error
        "Failed to update complaint status: Complaint ISS-0000 not found",
        {}) ∧
    updateStatusAndNotify {} "ISS-0000" .resolved "admin" none none none 0
      false false false =
      (Except.error "Complaint ISS-0000 not found", {}) := by
  have h := C4_update_nonexistent_notFound_noop {} "ISS-0000"
    { status := .resolved, updatedBy := "admin", updatedAt := 0 } .resolved
    "admin" none none none 0 false false false rfl
  exact h

/-- C5: on an existing complaint, a status update carrying status resolved,
notes fixed and image payload X succeeds, and reading the complaint back
yields status resolved, the same notes (stored as lastUpdateNotes) and a
stored image reference (resolvedImageBase64) equal to X. -/
theorem C5_resolved_roundtrip (s : FirestoreState) (cid : String)
    (cur : ComplaintDoc) (ub X : String) (now : Int) (hf : Bool)
    (h : s.complaints.lookup cid = some cur) :
    (updateComplaintStatus s cid
      { status := .resolved, updatedBy := ub, updatedAt := now
        notes := some "fixed", resolvedImageUrl := some X } hf).1 =
      Except.ok () ∧
    ((updateComplaintStatus s cid
      { status := .resolved, updatedBy := ub, updatedAt := now
        notes := some "fixed", resolvedImageUrl := some X } hf).2
      ).complaints.lookup cid =
      some (applyUpdateFields cur
        { status := .resolved, updatedBy := ub, updatedAt := now
          notes := some "fixed", resolvedImageUrl := some X }) ∧
    (applyUpdateFields cur
      { status := .resolved, updatedBy := ub, updatedAt := now
        notes := some "fixed", resolvedImageUrl := some X }).status =
      some "resolved" ∧
    (applyUpdateFields cur
      { status := .resolved, updatedBy := ub, updatedAt := now
        notes := some "fixed", resolvedImageUrl := some X }).lastUpdateNotes =
      some "fixed" ∧
    (applyUpdateFields cur
      { status := .resolved, updatedBy := ub, updatedAt := now
        notes := some "fixed", resolvedImageUrl := some X }).resolvedImageBase64 =
      some X := by
  refine ⟨?_, ?_, ?_, ?_, ?_⟩
  · unfold updateComplaintStatus
    simp [h]
  · unfold updateComplaintStatus
    have hl := lookup_updateAssoc s.complaints cid
      (applyUpdateFields cur
        { status := .resolved, updatedBy := ub, updatedAt := now
          notes := some "fixed", resolvedImageUrl := some X }) cur h
    cases hf <;> simp [h, addStatusHistory, hl]
  · simp [applyUpdateFields, ComplaintStatus.toStr]
  · simp [applyUpdateFields, jsTruthy]
  · simp [applyUpdateFields]

/-- C5 witness: the sample store, image payload imgX. -/
theorem C5_resolved_roundtrip_witness :
    ((updateComplaintStatus sampleState "c1"
      { status := .resolved, updatedBy := "admin", updatedAt := 5
        notes := some "fixed", resolvedImageUrl := some "imgX" } false).2
      ).complaints.lookup "c1" =
      some (applyUpdateFields sampleDoc
        { status := .resolved, updatedBy := "admin", updatedAt := 5
          notes := some "fixed", resolvedImageUrl := some "imgX" }) ∧
    (applyUpdateFields sampleDoc
      { status := .resolved, updatedBy := "admin", updatedAt := 5
        notes := some "fixed", resolvedImageUrl := some "imgX" }).status =
      some "resolved" ∧
    (applyUpdateFields sampleDoc
      { status := .resolved, updatedBy := "admin", updatedAt := 5
        notes := some "fixed", resolvedImageUrl := some "imgX" }).lastUpdateNotes =
      some "fixed" ∧
    (applyUpdateFields sampleDoc
      { status := .resolved, updatedBy := "admin", updatedAt := 5
        notes := some "fixed", resolvedImageUrl := some "imgX" }).resolvedImageBase64 =
      some "imgX" := by
  have h := C5_resolved_roundtrip sampleState "c1" sampleDoc "admin" "imgX" 5
    false rfl
  exact ⟨h.2.1, h.2.2.1, h.2.2.2.1, h.2.2.2.2⟩

/-- C8: when the complaint-document write succeeds but the status-history
append fails, updateComplaintStatus still returns success, the complaint
carries the new status, and no history entry exists for the change. -/
theorem C8_history_append_failure_swallowed (s : FirestoreState)
    (cid : String) (cur : ComplaintDoc) (d : StatusUpdateData)
    (h : s.complaints.lookup cid = some cur) :
    (updateComplaintStatus s cid d true).1 = Except.ok () ∧
    ((updateComplaintStatus s cid d true).2).complaints.lookup cid =
      some (applyUpdateFields cur d) ∧
    (applyUpdateFields cur d).status = some d.status.toStr ∧
    ((updateComplaintStatus s cid d true).2).statusHistory =
      s.statusHistory := by
  have hl := lookup_updateAssoc s.complaints cid (applyUpdateFields cur d)
    cur h
  refine ⟨?_, ?_, ?_, ?_⟩
  · unfold updateComplaintStatus
    simp [h]
  · unfold updateComplaintStatus
    simp [h, addStatusHistory, hl]
  · simp [applyUpdateFields]
    split <;> rfl
  · unfold updateComplaintStatus
    simp [h, addStatusHistory]

/-- C8 witness: the sample store with a failing history append. -/
theorem C8_history_append_failure_swallowed_witness :
    (updateComplaintStatus sampleState "c1"
      { status := .resolved, updatedBy := "admin", updatedAt := 5 } true).1 =
      Except.ok () ∧
    ((updateComplaintStatus sampleState "c1"
      { status := .resolved, updatedBy := "admin", updatedAt := 5 } true).2
      ).statusHistory = sampleState.statusHistory := by
  have h := C8_history_append_failure_swallowed sampleState "c1" sampleDoc
    { status := .resolved, updatedBy := "admin", updatedAt := 5 } rfl
  exact ⟨h.1, h.2.2.2⟩

open AdminPortal.CloudFunctions

/-- C2: the callable endpoint does return unauthenticated and
invalid-argument as claimed, but the not-found and failed-precondition
HttpsError values it constructs are thrown inside the try block, so the
catch-all rewraps both as kind internal before the caller sees them: with
an authenticated caller and all fields present, a missing token record
yields kind internal (message FCM token not found for user), and an
inactive record yields kind internal (message FCM token is inactive). -/
theorem C2_sendCustomNotification_masks_inner_kinds :
    sendCustomNotification sampleState (some "admin1")
      { userId := some "u1", complaintId := some "c1", title := some "t"
        body := some "b" } (Except.ok "mid") 0 =
      Except.error { code := "internal"
                     message := "FCM token not found for user" } ∧
    sendCustomNotification sampleStateInactive (some "admin1")
      { userId := some "u1", complaintId := some "c1", title := some "t"
        body := some "b" } (Except.ok "mid") 0 =
      Except.error { code := "internal"
                     message := "FCM token is inactive" } ∧
    sendCustomNotification sampleState none
      { userId := some "u1", complaintId := some "c1", title := some "t"
        body := some "b" } (Except.ok "mid") 0 =
      Except.error { code := "unauthenticated"
                     message := "User must be authenticated" } ∧
    sendCustomNotification sampleState (some "admin1")
      { userId := some "u1", complaintId := some "c1", title := some "t" }
      (Except.ok "mid") 0 =
      Except.error { code := "invalid-argument"
                     message := "Missing required fields" } := by
  refine ⟨rfl, rfl, rfl, rfl⟩

/-- C3 counterexample: a trigger invocation for a document created directly
with status resolved (no before-image) and an active token produces a
Notification Log Entry of kind confirmation, although the triggering write
is not a transition into status submitted. -/
theorem C3_confirmation_not_only_submitted_counterexample :
    ((onComplaintStatusChange sampleStateActive "c9" none
      (some { complaintId := "c9", userId := some "u1", category := "Garbage"
              status := some "resolved" }) (Except.ok "mid") 0
      ).2.1.notificationLogs.map NotificationLog.type = ["confirmation"]) ∧
    (ComplaintDoc.status
      { complaintId := "c9", userId := some "u1", category := "Garbage"
        status := some "resolved" } = some "resolved") := by
  refine ⟨rfl, rfl⟩

/-- C3 amended: the notification kinds of the two dispatch paths are
characterized as follows.  On the trigger path, confirmation is emitted for
every document creation (no prior document) regardless of the new status,
not only for creations with status submitted; acknowledgment exactly for a
status change into in-progress; resolution exactly for a status change into
resolved.  On the orchestrator path the kind is a function of the target
status alone (submitted to confirmation, in-progress to acknowledgment,
resolved to resolution, closed to none), regardless of the previous status
or of whether a prior record exists. -/
theorem C3_notification_kind_characterization (oldData : Option ComplaintDoc)
    (newData : ComplaintDoc) (st : ComplaintStatus) :
    (triggerNotificationType oldData newData = some "confirmation" ↔
      oldData = none) ∧
    (triggerNotificationType oldData newData = some "acknowledgment" ↔
      ∃ old, oldData = some old ∧ old.status ≠ newData.status ∧
        newData.status = some "in-progress") ∧
    (triggerNotificationType oldData newData = some "resolution" ↔
      ∃ old, oldData = some old ∧ old.status ≠ newData.status ∧
        newData.status = some "resolved") ∧
    (orchestratorKind st = some "confirmation" ↔ st = .submitted) ∧
    (orchestratorKind st = some "acknowledgment" ↔ st = .inProgress) ∧
    (orchestratorKind st = some "resolution" ↔ st = .resolved) := by
  refine ⟨?_, ?_, ?_, ?_, ?_, ?_⟩
  · cases oldData with
    | none => simp [triggerNotificationType]
    | some old =>
        simp only [triggerNotificationType]
        by_cases hst : old.status = newData.status
        · simp [hst]
        · cases hnew : newData.status with
          | none => simp [hst, hnew]
          | some stv =>
              by_cases h1 : stv = "in-progress"
              · simp [hst, hnew, h1]
              · by_cases h2 : stv = "resolved"
                · simp [hst, hnew, h1, h2]
                · simp [hst, hnew, h1, h2]
  · cases oldData with
    | none => simp [triggerNotificationType]
    | some old =>
        simp only [triggerNotificationType]
        by_cases hst : old.status = newData.status
        · simp [hst]
        · cases hnew : newData.status with
          | none => simp [hst, hnew]
          | some stv =>
              by_cases h1 : stv = "in-progress"
              · simp [hst, hnew, h1]
              · by_cases h2 : stv = "resolved"
                · simp [hst, hnew, h1, h2]
                · simp [hst, hnew, h1, h2]
  · cases oldData with
    | none => simp [triggerNotificationType]
    | some old =>
        simp only [triggerNotificationType]
        by_cases hst : old.status = newData.status
        · simp [hst]
        · cases hnew : newData.status with
          | none => simp [hst, hnew]
          | some stv =>
              by_cases h1 : stv = "in-progress"
              · simp [hst, hnew, h1]
              · by_cases h2 : stv = "resolved"
                · simp [hst, hnew, h1, h2]
                · simp [hst, hnew, h1, h2]
  · cases st <;> simp [orchestratorKind]
  · cases st <;> simp [orchestratorKind]
  · cases st <;> simp [orchestratorKind]

/-- C7: a dispatch whose target submitter has no Device Token Record, or an
inactive one, no-ops without being a failure: fcmService.sendNotification
returns false with the store untouched (no send is modelled at all on this
client path), the trigger handler returns normally with no send request and
no log entry, and the orchestrator status update still completes with
success. -/
theorem C7_absent_or_inactive_token_noop (s : FirestoreState)
    (userId complaintId type title body : String) (now : Int) (lwf : Bool)
    (cid : String) (before : Option ComplaintDoc) (after : ComplaintDoc)
    (sendResult : Except String String)
    (h : s.fcmTokens.lookup (userId ++ "_web") = none ∨
      ∃ td, s.fcmTokens.lookup (userId ++ "_web") = some td ∧
        td.isActive = false) :
    FCMService.sendNotification s userId complaintId type title body now
      false lwf = (false, s) ∧
    (jsStr after.userId = userId →
      onComplaintStatusChange s cid before (some after) sendResult now =
        (Except.ok none, s, [])) ∧
    (∀ c st ub a dep n hf,
      s.complaints.lookup complaintId = some c →
      (updateStatusAndNotify s complaintId st ub a dep n now hf false lwf).1 =
        Except.ok ()) := by
  refine ⟨?_, ?_, ?_⟩
  · unfold FCMService.sendNotification
    rcases h with hnone | ⟨td, htd, hact⟩
    · simp [hnone]
    · simp [htd, hact]
  · intro hu
    unfold onComplaintStatusChange
    cases htr : jsTruthy after.userId with
    | false => simp [htr]
    | true =>
        cases hkind : triggerNotificationType before after with
        | none => simp [htr, hkind]
        | some ty =>
            rcases h with hnone | ⟨td, htd, hact⟩
            · simp [htr, hkind, hu, hnone]
            · simp [htr, hkind, hu, htd, hact]
  · intro c st ub a dep n hf hc
    unfold updateStatusAndNotify updateComplaintStatus
    simp [hc]

/-- C7 witness: the sample store without tokens, the sample complaint. -/
theorem C7_absent_or_inactive_token_noop_witness :
    FCMService.sendNotification sampleState "u1" "c1" "resolution" "t" "b" 0
      false false = (false, sampleState) ∧
    onComplaintStatusChange sampleState "c1" none (some sampleDoc)
      (Except.ok "mid") 0 = (Except.ok none, sampleState, []) ∧
    (updateStatusAndNotify sampleState "c1" .resolved "admin" none none none
      0 false false false).1 = Except.ok () := by
  have h := C7_absent_or_inactive_token_noop sampleState "u1" "c1"
    "resolution" "t" "b" 0 false "c1" none sampleDoc (Except.ok "mid")
    (Or.inl rfl)
  exact ⟨h.1, h.2.1 rfl,
    h.2.2 sampleDoc .resolved "admin" none none none false rfl⟩

/-- C9: fcmService.sendNotification is a total function (the embedding
returns a value on every input, matching the source where every fallible
step is inside try/catch) and: an absent or inactive token record yields
false with no log entry at all; a successful attempt yields true after
appending an entry with delivery status sent carrying the token; a caught
error (the token read failing) yields false after appending an entry with
delivery status failed and no token. -/
theorem C9_fcm_sendNotification_cases (s : FirestoreState)
    (userId cid type title body : String) (now : Int) :
    (s.fcmTokens.lookup (userId ++ "_web") = none →
      FCMService.sendNotification s userId cid type title body now false
        false = (false, s)) ∧
    (∀ td, s.fcmTokens.lookup (userId ++ "_web") = some td →
      td.isActive = false →
      FCMService.sendNotification s userId cid type title body now false
        false = (false, s)) ∧
    (∀ td, s.fcmTokens.lookup (userId ++ "_web") = some td →
      td.isActive = true →
      FCMService.sendNotification s userId cid type title body now false
        false = (true, { s with notificationLogs := s.notificationLogs ++
          [{ userId := userId, complaintId := cid, type := type
             title := title, body := body, sentAt := now, status := "sent"
             fcmToken := some td.token }] })) ∧
    FCMService.sendNotification s userId cid type title body now true false
      = (false, { s with notificationLogs := s.notificationLogs ++
          [{ userId := userId, complaintId := cid, type := type
             title := title, body := body, sentAt := now
             status := "failed" }] }) := by
  refine ⟨?_, ?_, ?_, ?_⟩
  · intro hnone
    unfold FCMService.sendNotification
    simp [hnone]
  · intro td htd hact
    unfold FCMService.sendNotification
    simp [htd, hact]
  · intro td htd hact
    unfold FCMService.sendNotification FCMService.logNotification
    simp [htd, hact]
  · unfold FCMService.sendNotification FCMService.logNotification
    simp

/-- C9 witness: the three stores of the fixtures exercise the no-token,
inactive-token and active-token cases. -/
theorem C9_fcm_sendNotification_cases_witness :
    FCMService.sendNotification sampleState "u1" "c1" "resolution" "t" "b" 7
      false false = (false, sampleState) ∧
    FCMService.sendNotification sampleStateInactive "u1" "c1" "resolution"
      "t" "b" 7 false false = (false, sampleStateInactive) ∧
    FCMService.sendNotification sampleStateActive "u1" "c1" "resolution" "t"
      "b" 7 false false =
      (true, { sampleStateActive with notificationLogs :=
        sampleStateActive.notificationLogs ++
          [{ userId := "u1", complaintId := "c1", type := "resolution"
             title := "t", body := "b", sentAt := 7, status := "sent"
             fcmToken := some sampleTokenActive.token }] }) := by
  refine ⟨(C9_fcm_sendNotification_cases sampleState "u1" "c1" "resolution"
      "t" "b" 7).1 rfl,
    (C9_fcm_sendNotification_cases sampleStateInactive "u1" "c1"
      "resolution" "t" "b" 7).2.1 sampleTokenInactive rfl rfl,
    (C9_fcm_sendNotification_cases sampleStateActive "u1" "c1" "resolution"
      "t" "b" 7).2.2.1 sampleTokenActive rfl rfl⟩

/-- C10: when the after-image is absent (the complaint was deleted) or the
document has no truthy userId, the trigger handler returns without touching
the store, without submitting any send request and without appending any
log entry. -/
theorem C10_trigger_skips_missing_after_or_userId (s : FirestoreState)
    (cid : String) (before after : Option ComplaintDoc)
    (sendResult : Except String String) (now : Int)
    (h : after = none ∨ ∃ d, after = some d ∧ jsTruthy d.userId = false) :
    onComplaintStatusChange s cid before after sendResult now =
      (Except.ok none, s, []) := by
  rcases h with rfl | ⟨d, rfl, hd⟩
  · rfl
  · unfold onComplaintStatusChange
    simp [hd]

/-- C10 witness: a deletion (no after-image) and a creation without a
userId field. -/
theorem C10_trigger_skips_missing_after_or_userId_witness :
    onComplaintStatusChange sampleState "c1" none none (Except.ok "mid") 0 =
      (Except.ok none, sampleState, []) ∧
    onComplaintStatusChange sampleState "c1" none
      (some { complaintId := "c1", status := some "resolved" })
      (Except.ok "mid") 0 = (Except.ok none, sampleState, []) :=
  ⟨C10_trigger_skips_missing_after_or_userId sampleState "c1" none none
      (Except.ok "mid") 0 (Or.inl rfl),
    C10_trigger_skips_missing_after_or_userId sampleState "c1" none
      (some { complaintId := "c1", status := some "resolved" })
      (Except.ok "mid") 0
      (Or.inr ⟨{ complaintId := "c1", status := some "resolved" }, rfl, rfl⟩)⟩
